import Mathlib

/-!
Shallow embedding of the content-filtering / site-shield engine of
`src/src-tauri/src/browser/filters.rs` (repository sw3do/sw3do-browser), and
proofs about it.

Modelling conventions:
* Rust `String` is Lean `String`; string scanning primitives from the Rust
  standard library (`starts_with`, `contains`, `replace`, `split`, `trim`,
  `lines`) are re-implemented below by structural recursion on `List Char`
  so that every definition evaluates inside the kernel.
* `HashMap<String, V>` is modelled as an association list
  `List (String × V)` holding the map's entries in its (unspecified)
  iteration order; `get`/`get_mut`/`insert` become `alistGet`/`alistSet`.
  Key uniqueness is a `HashMap` invariant, so `alistGet` takes the first hit.
* `chrono::DateTime<Utc>` timestamps are modelled as `Nat`; `Utc::now()`
  becomes an explicit `now : Nat` argument of the operations that stamp it.
* `u32`/`u64` counters are modelled as `Nat` (the claims under study never
  reach the wrap-around range).
* `regex::Regex` is external to the repository; a compiled regex is modelled
  as its matching predicate `String → Bool`.  The engine never inserts into
  `compiled_rules` in the source, so concrete states below use `[]`.
* `url::Url::parse` composed with `.domain().unwrap_or("")` is external to
  the repository and is modelled by `parseUrlDomain` below: `none` exactly
  when parsing fails, otherwise the host part of a `scheme://host...` form.
* The async fetch of `update_filter_lists` (`reqwest::get` + `.text()`)
  is modelled by a function argument `fetch : String → Option String`
  mapping a list's URL to the fetched text, `none` when either stage fails.
-/

namespace SwBrowser

/-- Rust `l.starts_with(p)` on character lists. -/
def listStartsWith : List Char → List Char → Bool
  | _, [] => true
  | [], _ :: _ => false
  | c :: cs, p :: ps => c == p && listStartsWith cs ps

/-- Rust `l.contains(sub)` (substring containment) on character lists. -/
def listContainsSub (l sub : List Char) : Bool :=
  if listStartsWith l sub then true
  else match l with
    | [] => false
    | _ :: t => listContainsSub t sub

/-- Rust `line.replace("@@", "")`: remove every (leftmost, non-overlapping)
occurrence of `@@`. -/
def removeDoubleAt : List Char → List Char
  | [] => []
  | '@' :: '@' :: t => removeDoubleAt t
  | c :: t => c :: removeDoubleAt t

/-- Rust `line.split("$").next().unwrap_or(line)`: the segment before the
first `$`, or the whole line when there is none (`split` always yields a
first segment, so the `unwrap_or` fallback of the source is unreachable). -/
def takeUntilDollar : List Char → List Char
  | [] => []
  | '$' :: _ => []
  | c :: t => c :: takeUntilDollar t

/-- Rust `line.trim()`. -/
def trimChars (l : List Char) : List Char :=
  ((l.dropWhile Char.isWhitespace).reverse.dropWhile Char.isWhitespace).reverse

/-- Rust `content.lines()` (split at newline; a final empty segment produced
by a trailing newline is an empty line, which the parser skips anyway). -/
def splitLines : List Char → List (List Char)
  | [] => [[]]
  | '\n' :: t => [] :: splitLines t
  | c :: t =>
    match splitLines t with
    | [] => [[c]]
    | l :: ls => (c :: l) :: ls

/-- Locate the first `://` of a character list, returning the part before
and after it. -/
def findSchemeSep : List Char → Option (List Char × List Char)
  | ':' :: '/' :: '/' :: t => some ([], t)
  | [] => none
  | c :: t =>
    match findSchemeSep t with
    | some (pre, post) => some (c :: pre, post)
    | none => none

/-- Host characters: everything up to the first path, port, query or
fragment delimiter. -/
def hostChars (l : List Char) : List Char :=
  l.takeWhile (fun c => !(c == '/' || c == ':' || c == '?' || c == '#'))

/-- Model of the external `url` crate as used by the source:
`Url::parse(url)` followed by `.domain().unwrap_or("")`.  Returns `none`
exactly when parsing fails (no alphabetic `scheme://` prefix in this
simplified model), otherwise the host part of the URL. -/
def parseUrlDomain (url : String) : Option String :=
  match findSchemeSep url.data with
  | none => none
  | some (scheme, rest) =>
    if scheme.isEmpty || !(scheme.all Char.isAlpha) then none
    else some (String.mk (hostChars rest))

/-- `HashMap::get`, on the association-list model. -/
def alistGet {α : Type} (k : String) : List (String × α) → Option α
  | [] => none
  | (k', v) :: rest => if k' = k then some v else alistGet k rest

/-- In-place update of an existing entry (`HashMap::get_mut` followed by
mutation): replaces the value of the first entry with key `k`, leaves the
list unchanged when no entry has key `k`. -/
def alistSet {α : Type} (k : String) (v : α) : List (String × α) → List (String × α)
  | [] => []
  | (k', v') :: rest => if k' = k then (k', v) :: rest else (k', v') :: alistSet k v rest

/-- `FilterOptions` of filters.rs (lines 34-43). -/
structure FilterOptions where
  script : Bool
  image : Bool
  stylesheet : Bool
  xmlhttprequest : Bool
  subdocument : Bool
  third_party : Bool
  popup : Bool
deriving DecidableEq, Repr

/-- `FilterOptions::default` (lines 45-57): every flag true. -/
def FilterOptions.default : FilterOptions :=
  { script := true, image := true, stylesheet := true, xmlhttprequest := true
    subdocument := true, third_party := true, popup := true }

/-- `FilterRuleType` of filters.rs (lines 26-32). -/
inductive FilterRuleType where
  | Block
  | Allow
  | Hide
  | Redirect
deriving DecidableEq, Repr

/-- `FilterRule` of filters.rs (lines 17-24). -/
structure FilterRule where
  pattern : String
  rule_type : FilterRuleType
  domains : Option (List String)
  exceptions : Option (List String)
  options : FilterOptions
deriving DecidableEq, Repr

/-- `FilterList` of filters.rs (lines 8-15); `last_updated` as `Nat`. -/
structure FilterList where
  name : String
  url : String
  enabled : Bool
  last_updated : Nat
  rules : List FilterRule
deriving DecidableEq, Repr

/-- `SiteShields` of filters.rs (lines 59-71). -/
structure SiteShields where
  domain : String
  ad_blocking : Bool
  tracker_blocking : Bool
  third_party_cookies : Bool
  fingerprinting_protection : Bool
  https_only : Bool
  scripts_blocked : Nat
  trackers_blocked : Nat
  ads_blocked : Nat
  last_updated : Nat
deriving DecidableEq, Repr

/-- `SiteShields::default` (lines 73-88); `Utc::now()` is the explicit
`now` argument. -/
def SiteShields.default (now : Nat) : SiteShields :=
  { domain := "", ad_blocking := true, tracker_blocking := true
    third_party_cookies := false, fingerprinting_protection := true
    https_only := true, scripts_blocked := 0, trackers_blocked := 0
    ads_blocked := 0, last_updated := now }

/-- `GlobalStats` of filters.rs (lines 97-104). -/
structure GlobalStats where
  total_ads_blocked : Nat
  total_trackers_blocked : Nat
  total_scripts_blocked : Nat
  bandwidth_saved : Nat
  last_reset : Nat
deriving DecidableEq, Repr

/-- `FilterEngine` of filters.rs (lines 90-95).  The two `HashMap`s are
association lists in iteration order; a compiled regex is its matching
predicate. -/
structure FilterEngine where
  filter_lists : List (String × FilterList)
  site_shields : List (String × SiteShields)
  compiled_rules : List (String × (String → Bool))
  global_stats : GlobalStats

/-- The pattern test of `matches_rule` (lines 179-187): use the compiled
regex for this exact pattern text when one is cached, otherwise substring
containment `url.contains(&rule.pattern)`. -/
def patternMatches (e : FilterEngine) (url : String) (rule : FilterRule) : Bool :=
  match alistGet rule.pattern e.compiled_rules with
  | some re => re url
  | none => listContainsSub url.data rule.pattern.data

/-- The resource-type gate of `matches_rule` (lines 201-208): a Rust
`match` on the `request_type` string, defaulting to `true`. -/
def typeFlagOk (opts : FilterOptions) (request_type : String) : Bool :=
  if request_type = "script" then opts.script
  else if request_type = "image" then opts.image
  else if request_type = "stylesheet" then opts.stylesheet
  else if request_type = "xmlhttprequest" then opts.xmlhttprequest
  else if request_type = "subdocument" then opts.subdocument
  else true

/-- `FilterEngine::matches_rule` (lines 178-209). -/
def matches_rule (e : FilterEngine) (url : String) (rule : FilterRule)
    (request_type origin_domain : String) : Bool :=
  if !(patternMatches e url rule) then false
  else if (match rule.domains with
           | some ds => !(ds.contains origin_domain)
           | none => false) then false
  else if (match rule.exceptions with
           | some ex => ex.contains origin_domain
           | none => false) then false
  else typeFlagOk rule.options request_type

/-- The inner rule loop of `should_block_request` (lines 163-171): first
matching rule of kind Block decides `some true`, of kind Allow decides
`some false`; matching Hide/Redirect rules and non-matching rules are
skipped; `none` when no rule decides. -/
def scanRules (e : FilterEngine) (url ty org : String) : List FilterRule → Option Bool
  | [] => none
  | r :: rest =>
    if matches_rule e url r ty org then
      match r.rule_type with
      | FilterRuleType.Block => some true
      | FilterRuleType.Allow => some false
      | _ => scanRules e url ty org rest
    else scanRules e url ty org rest

/-- The outer list loop of `should_block_request` (lines 158-172): skip
disabled lists, otherwise let the rule loop decide; fall through to the
next list when it does not. -/
def scanLists (e : FilterEngine) (url ty org : String) :
    List (String × FilterList) → Option Bool
  | [] => none
  | (_, fl) :: rest =>
    if !fl.enabled then scanLists e url ty org rest
    else match scanRules e url ty org fl.rules with
      | some b => some b
      | none => scanLists e url ty org rest

/-- `FilterEngine::should_block_request` (lines 144-176). -/
def should_block_request (e : FilterEngine) (url request_type origin_domain : String) : Bool :=
  match parseUrlDomain url with
  | none => false
  | some domain =>
    match alistGet origin_domain e.site_shields with
    | some shields =>
      if !shields.ad_blocking && !shields.tracker_blocking then false
      else if shields.third_party_cookies && domain != origin_domain then true
      else (scanLists e url request_type origin_domain e.filter_lists).getD false
    | none => (scanLists e url request_type origin_domain e.filter_lists).getD false

/-- `FilterEngine::update_site_shields` (lines 211-213). -/
def update_site_shields (e : FilterEngine) (domain : String) (shields : SiteShields) :
    FilterEngine :=
  { e with site_shields :=
      match alistGet domain e.site_shields with
      | some _ => alistSet domain shields e.site_shields
      | none => e.site_shields ++ [(domain, shields)] }

/-- `FilterEngine::get_site_shields` (lines 215-223).  The source takes
`&self`, so the registry cannot be mutated: the embedding returns only the
`SiteShields` value. -/
def get_site_shields (e : FilterEngine) (domain : String) (now : Nat) : SiteShields :=
  match alistGet domain e.site_shields with
  | some sh => sh
  | none => { SiteShields.default now with domain := domain }

/-- `FilterEngine::increment_blocked_count` (lines 225-244). -/
def increment_blocked_count (e : FilterEngine) (domain block_type : String) (now : Nat) :
    FilterEngine :=
  match alistGet domain e.site_shields with
  | none => e
  | some sh =>
    if block_type = "ad" then
      { e with
        site_shields := alistSet domain
          { sh with ads_blocked := sh.ads_blocked + 1, last_updated := now } e.site_shields
        global_stats := { e.global_stats with
          total_ads_blocked := e.global_stats.total_ads_blocked + 1 } }
    else if block_type = "tracker" then
      { e with
        site_shields := alistSet domain
          { sh with trackers_blocked := sh.trackers_blocked + 1, last_updated := now } e.site_shields
        global_stats := { e.global_stats with
          total_trackers_blocked := e.global_stats.total_trackers_blocked + 1 } }
    else if block_type = "script" then
      { e with
        site_shields := alistSet domain
          { sh with scripts_blocked := sh.scripts_blocked + 1, last_updated := now } e.site_shields
        global_stats := { e.global_stats with
          total_scripts_blocked := e.global_stats.total_scripts_blocked + 1 } }
    else
      { e with site_shields := alistSet domain { sh with last_updated := now } e.site_shields }

/-- Skip test of the parser (line 265): empty lines, comments, section
headers. -/
def skipLine (line : List Char) : Bool :=
  match line with
  | [] => true
  | '!' :: _ => true
  | '[' :: _ => true
  | _ => false

/-- Rule classification of the parser (lines 269-275). -/
def classifyLine (line : List Char) : FilterRuleType :=
  if listStartsWith line ['@', '@'] then FilterRuleType.Allow
  else if listContainsSub line ['#', '#'] then FilterRuleType.Hide
  else FilterRuleType.Block

/-- Pattern extraction of the parser (line 277):
`line.replace("@@", "").split("$").next().unwrap_or(line)`. -/
def linePattern (line : List Char) : List Char :=
  takeUntilDollar (removeDoubleAt line)

/-- `FilterEngine::parse_filter_rules` (lines 259-289). -/
def parse_filter_rules (content : String) : List FilterRule :=
  ((splitLines content.data).map trimChars).filterMap (fun line =>
    if skipLine line then none
    else some
      { pattern := String.mk (linePattern line)
        rule_type := classifyLine line
        domains := none
        exceptions := none
        options := FilterOptions.default })

/-- The per-list body of `update_filter_lists` (lines 248-254): on a
successful fetch and text extraction, replace the rules wholesale and stamp
`last_updated`; on failure leave the list untouched. -/
def refreshList (fetch : String → Option String) (now : Nat) (fl : FilterList) : FilterList :=
  match fetch fl.url with
  | some content => { fl with rules := parse_filter_rules content, last_updated := now }
  | none => fl

/-- `FilterEngine::update_filter_lists` (lines 246-257).  The source
iterates `filter_lists.iter_mut()` — every list, with no check of
`enabled` — and always returns `Ok(())`. -/
def update_filter_lists (fetch : String → Option String) (now : Nat) (e : FilterEngine) :
    FilterEngine :=
  { e with filter_lists := e.filter_lists.map (fun p => (p.1, refreshList fetch now p.2)) }

/-- The sequence of rules `should_block_request` scans: rules of enabled
lists, in list order then rule order. -/
def enabledRules (ls : List (String × FilterList)) : List FilterRule :=
  (ls.map (fun p => if p.2.enabled then p.2.rules else [])).flatten

/-- The pre-scan site-shield gate of `should_block_request` (lines
148-156): `true` when neither shield short-circuit (both-protections-off,
third-party heuristic) fires for origin `org` and target domain `d`. -/
def shieldGate (e : FilterEngine) (org d : String) : Bool :=
  match alistGet org e.site_shields with
  | none => true
  | some sh => (sh.ad_blocking || sh.tracker_blocking) && !(sh.third_party_cookies && d != org)

/-- Per-domain blocked counter selected by category string. -/
def perCounter (cat : String) (sh : SiteShields) : Nat :=
  if cat = "ad" then sh.ads_blocked
  else if cat = "tracker" then sh.trackers_blocked
  else if cat = "script" then sh.scripts_blocked
  else 0

/-- Global blocked counter selected by category string. -/
def globCounter (cat : String) (gs : GlobalStats) : Nat :=
  if cat = "ad" then gs.total_ads_blocked
  else if cat = "tracker" then gs.total_trackers_blocked
  else if cat = "script" then gs.total_scripts_blocked
  else 0

/-! Concrete states used to evaluate the engine on explicit inputs. -/

/-- Fresh global statistics, all counters zero. -/
def gs0 : GlobalStats := ⟨0, 0, 0, 0, 0⟩

/-- An Allow rule whose pattern is the substring `a.com`. -/
def ruleAllowA : FilterRule :=
  ⟨"a.com", FilterRuleType.Allow, none, none, FilterOptions.default⟩

/-- A persisted shields entry for `b.com` with `third_party_cookies`
enabled and the default protections on. -/
def shieldTP : SiteShields := ⟨"b.com", true, true, true, true, true, 0, 0, 0, 0⟩

/-- Engine whose single enabled list holds only `ruleAllowA` and whose
registry holds `shieldTP` for `b.com`. -/
def engineC1x : FilterEngine :=
  ⟨[("l1", ⟨"L1", "https://l1", true, 0, [ruleAllowA]⟩)], [("b.com", shieldTP)], [], gs0⟩

/-- A Block rule whose pattern is the substring `ads`. -/
def ruleBlockAds : FilterRule :=
  ⟨"ads", FilterRuleType.Block, none, none, FilterOptions.default⟩

/-- Engine with one enabled list holding only `ruleBlockAds` and no
persisted shields. -/
def engineBlockAds : FilterEngine :=
  ⟨[("easylist", ⟨"EasyList", "https://e", true, 0, [ruleBlockAds]⟩)], [], [], gs0⟩

/-- An enabled list holding one Allow rule for the substring `ads`. -/
def listAllowAds : FilterList :=
  ⟨"LA", "https://la", true, 0,
   [⟨"ads", FilterRuleType.Allow, none, none, FilterOptions.default⟩]⟩

/-- An enabled list holding one Block rule for the substring `ads`. -/
def listBlockAds : FilterList := ⟨"LB", "https://lb", true, 0, [ruleBlockAds]⟩

/-- Engine storing the Allow list before the Block list. -/
def engineOrder12 : FilterEngine :=
  ⟨[("la", listAllowAds), ("lb", listBlockAds)], [], [], gs0⟩

/-- Engine storing the same two entries in the opposite order. -/
def engineOrder21 : FilterEngine :=
  ⟨[("lb", listBlockAds), ("la", listAllowAds)], [], [], gs0⟩

/-- A Block rule whose `popup` resource flag is off (all others on). -/
def rulePopupOff : FilterRule :=
  ⟨"ads", FilterRuleType.Block, none, none, ⟨true, true, true, true, true, true, false⟩⟩

/-- Engine with one enabled list holding only `rulePopupOff`. -/
def engineC5 : FilterEngine :=
  ⟨[("l", ⟨"L", "https://l", true, 0, [rulePopupOff]⟩)], [], [], gs0⟩

/-- A Block rule whose `image` resource flag is off (all others on). -/
def ruleImageOff : FilterRule :=
  ⟨"ads", FilterRuleType.Block, none, none, ⟨true, false, true, true, true, true, true⟩⟩

/-- A persisted shields entry for `site.com` with default settings and zero
counters. -/
def shieldsEntry : SiteShields := ⟨"site.com", true, true, false, true, true, 0, 0, 0, 0⟩

/-- Engine whose registry holds exactly one entry, for `site.com`. -/
def engineC6 : FilterEngine := ⟨[], [("site.com", shieldsEntry)], [], gs0⟩

/-- An enabled, empty filter list whose fetch will succeed. -/
def listGood : FilterList := ⟨"G", "https://good", true, 3, []⟩

/-- An enabled, empty filter list whose fetch will fail. -/
def listBad : FilterList := ⟨"B", "https://bad", true, 3, []⟩

/-- Engine holding `listGood` then `listBad`. -/
def engineC8 : FilterEngine := ⟨[("g", listGood), ("b", listBad)], [], [], gs0⟩

/-- Fetch outcome delivering text for `listGood` and failing for every
other URL. -/
def fetchC8 : String → Option String :=
  fun u => if u = "https://good" then some "ads.example.com" else none

/-- A disabled filter list with no rules. -/
def listOff : FilterList := ⟨"Off", "https://off", false, 5, []⟩

/-- Engine holding only the disabled `listOff`. -/
def engineC9 : FilterEngine := ⟨[("off", listOff)], [], [], gs0⟩

/-- Fetch outcome that always succeeds with one Block line. -/
def fetchC9 : String → Option String := fun _ => some "ads.example.com"

/-! Helper lemmas about the scan loops and the association-list model. -/

/-- Scanning a concatenation of rule sequences: the first decisive answer
of the left part wins, otherwise the right part is scanned. -/
theorem scanRules_append (e : FilterEngine) (u t o : String) (l1 l2 : List FilterRule) :
    scanRules e u t o (l1 ++ l2) =
      match scanRules e u t o l1 with
      | some b => some b
      | none => scanRules e u t o l2 := by
  induction l1 with
  | nil => rfl
  | cons r rest ih =>
    simp only [List.cons_append, scanRules]
    cases hm : matches_rule e u r t o <;> cases hrt : r.rule_type <;>
      simp [scanRules, hm, hrt, ih]

/-- The list loop equals the rule loop over the flattened sequence of
enabled lists' rules. -/
theorem scanLists_eq_scanRules (e : FilterEngine) (u t o : String)
    (ls : List (String × FilterList)) :
    scanLists e u t o ls = scanRules e u t o (enabledRules ls) := by
  induction ls with
  | nil => rfl
  | cons p rest ih =>
    obtain ⟨k, fl⟩ := p
    simp only [scanLists, enabledRules, List.map_cons, List.flatten_cons]
    cases hen : fl.enabled
    · simpa [hen, enabledRules] using ih
    · rw [scanRules_append]
      simp only [hen, Bool.not_true, Bool.false_eq_true, if_false]
      cases hsc : scanRules e u t o fl.rules <;> simp [hsc, ih, enabledRules]

/-- A rule sequence with no matching rule decides nothing. -/
theorem scanRules_eq_none (e : FilterEngine) (u t o : String) (l : List FilterRule)
    (h : ∀ r ∈ l, matches_rule e u r t o = false) :
    scanRules e u t o l = none := by
  induction l with
  | nil => rfl
  | cons r rest ih =>
    have hr := h r (List.mem_cons_self r rest)
    have ih' := ih (fun r' hr' => h r' (List.mem_cons_of_mem r hr'))
    simp [scanRules, hr, ih']

/-- A matching Allow rule preceded by no matching Block rule forces the
scan to decide `some false`. -/
theorem scanRules_allow_before_block (e : FilterEngine) (u t o : String)
    (l1 l2 : List FilterRule) (r : FilterRule)
    (hnb : ∀ r' ∈ l1, ¬(matches_rule e u r' t o = true ∧ r'.rule_type = FilterRuleType.Block))
    (hm : matches_rule e u r t o = true) (ha : r.rule_type = FilterRuleType.Allow) :
    scanRules e u t o (l1 ++ r :: l2) = some false := by
  induction l1 with
  | nil => simp [scanRules, hm, ha]
  | cons x rest ih =>
    have hx := hnb x (List.mem_cons_self x rest)
    have ih' := ih (fun r' hr' => hnb r' (List.mem_cons_of_mem x hr'))
    simp only [List.cons_append, scanRules]
    cases hmx : matches_rule e u x t o
    · simpa using ih'
    · cases hrt : x.rule_type
      · exact absurd ⟨hmx, hrt⟩ hx
      · simp
      · simpa using ih'
      · simpa using ih'

/-- When the URL parses and neither site-shield short-circuit fires, the
decision of `should_block_request` is the decision of the scan, defaulting
to false. -/
theorem should_block_eq_scan (e : FilterEngine) (url ty org d : String)
    (hp : parseUrlDomain url = some d) (hg : shieldGate e org d = true) :
    should_block_request e url ty org =
      (scanLists e url ty org e.filter_lists).getD false := by
  unfold should_block_request
  rw [hp]
  unfold shieldGate at hg
  cases hget : alistGet org e.site_shields with
  | none => rfl
  | some sh =>
    rw [hget] at hg
    simp only [Bool.and_eq_true, Bool.not_eq_true'] at hg
    obtain ⟨h1, h2⟩ := hg
    have hc1 : (!sh.ad_blocking && !sh.tracker_blocking) = false := by
      cases hA : sh.ad_blocking <;> cases hT : sh.tracker_blocking <;> simp_all
    simp [hc1, h2]

/-- Updating the value stored under a present key makes a later lookup of
that key return the new value. -/
theorem alistGet_alistSet {α : Type} (k : String) (v : α) (m : List (String × α)) (w : α)
    (h : alistGet k m = some w) : alistGet k (alistSet k v m) = some v := by
  induction m with
  | nil => simp [alistGet] at h
  | cons p rest ih =>
    obtain ⟨k', v'⟩ := p
    by_cases hk : k' = k
    · subst hk; simp [alistGet, alistSet]
    · simp only [alistGet, alistSet, hk, if_false, if_neg hk] at h ⊢
      exact ih h

/-- A rule whose resource-type gate is off for `ty` never matches a
request of type `ty`. -/
theorem typeFlagOk_false_matches (e : FilterEngine) (url : String) (r : FilterRule)
    (ty org : String) (h : typeFlagOk r.options ty = false) :
    matches_rule e url r ty org = false := by
  unfold matches_rule
  split
  · rfl
  split
  · rfl
  split
  · rfl
  exact h

/-- The resource-type gate defaults to applicable on every string outside
the five recognized resource types. -/
theorem typeFlagOk_unrecognized (o : FilterOptions) (ty : String)
    (h1 : ty ≠ "script") (h2 : ty ≠ "image") (h3 : ty ≠ "stylesheet")
    (h4 : ty ≠ "xmlhttprequest") (h5 : ty ≠ "subdocument") :
    typeFlagOk o ty = true := by
  simp [typeFlagOk, h1, h2, h3, h4, h5]

/-! Claim theorems. -/

/-- C1, counterexample: the unrestricted universal of the claim — an
Allow rule matching the request scanned before any matching Block rule
forces `should_block` to return false for every state and input — fails:
in `engineC1x` the only enabled rule is a matching Allow rule, yet the
third-party-cookies shield entry for the origin makes
`should_block_request` return true before the scan. -/
theorem C1_counterexample :
    ruleAllowA.rule_type = FilterRuleType.Allow ∧
    enabledRules engineC1x.filter_lists = [ruleAllowA] ∧
    matches_rule engineC1x "https://a.com/x" ruleAllowA "script" "b.com" = true ∧
    should_block_request engineC1x "https://a.com/x" "script" "b.com" = true := by
  exact ⟨rfl, by decide, by decide, by decide⟩

/-- C1, amended: rule precedence during the scan.  Provided the URL parses
and the site-shield pre-checks for the origin do not short-circuit, split
the scanned sequence of enabled rules as `l1 ++ r :: l2` with `r`
matching.  If nothing in `l1` matches, then: kind Block of `r` decides
true, kind Allow decides false, and kind Hide/Redirect leaves the decision
to the remaining rules `l2`.  Moreover an Allow match preceded by no
matching Block rule always yields false. -/
theorem C1_rule_precedence (e : FilterEngine) (url ty org d : String)
    (l1 : List FilterRule) (r : FilterRule) (l2 : List FilterRule)
    (hp : parseUrlDomain url = some d)
    (hg : shieldGate e org d = true)
    (hseq : enabledRules e.filter_lists = l1 ++ r :: l2)
    (hm : matches_rule e url r ty org = true) :
    ((∀ r' ∈ l1, matches_rule e url r' ty org = false) →
      (r.rule_type = FilterRuleType.Block → should_block_request e url ty org = true) ∧
      (r.rule_type = FilterRuleType.Allow → should_block_request e url ty org = false) ∧
      ((r.rule_type = FilterRuleType.Hide ∨ r.rule_type = FilterRuleType.Redirect) →
        should_block_request e url ty org = (scanRules e url ty org l2).getD false)) ∧
    ((∀ r' ∈ l1, ¬(matches_rule e url r' ty org = true ∧ r'.rule_type = FilterRuleType.Block)) →
      r.rule_type = FilterRuleType.Allow → should_block_request e url ty org = false) := by
  have hsb : should_block_request e url ty org =
      (scanRules e url ty org (l1 ++ r :: l2)).getD false := by
    rw [should_block_eq_scan e url ty org d hp hg, scanLists_eq_scanRules, hseq]
  constructor
  · intro hnone
    have hpre : scanRules e url ty org (l1 ++ r :: l2) = scanRules e url ty org (r :: l2) := by
      rw [scanRules_append, scanRules_eq_none e url ty org l1 hnone]
    refine ⟨?_, ?_, ?_⟩
    · intro hb
      rw [hsb, hpre]
      simp [scanRules, hm, hb]
    · intro ha
      rw [hsb, hpre]
      simp [scanRules, hm, ha]
    · intro hh
      rw [hsb, hpre]
      rcases hh with h | h <;> simp [scanRules, hm, h]
  · intro hnb ha
    rw [hsb, scanRules_allow_before_block e url ty org l1 l2 r hnb hm ha]
    rfl

/-- C1, witness: the amended theorem applied to a concrete engine with a
single matching Block rule decides true. -/
theorem C1_rule_precedence_witness :
    parseUrlDomain "https://ads.com/x" = some "ads.com" ∧
    shieldGate engineBlockAds "news.com" "ads.com" = true ∧
    enabledRules engineBlockAds.filter_lists = [] ++ ruleBlockAds :: [] ∧
    matches_rule engineBlockAds "https://ads.com/x" ruleBlockAds "script" "news.com" = true ∧
    should_block_request engineBlockAds "https://ads.com/x" "script" "news.com" = true := by
  refine ⟨by decide, by decide, by decide, by decide, ?_⟩
  exact ((C1_rule_precedence engineBlockAds "https://ads.com/x" "script" "news.com" "ads.com"
    [] ruleBlockAds [] (by decide) (by decide) (by decide) (by decide)).1
      (by intro r' h; cases h)).1 rfl

/-- C2: the decision of `should_block_request` depends on the order in
which the filter lists are stored.  `engineOrder12` and `engineOrder21`
hold the same two list entries, only in opposite sequence order — the
order the source draws from unordered `HashMap::values()` iteration — and
the same request is allowed by the one and blocked by the other.  The
deterministic, reproducible scan order the claim (and the spec's design
requirement) demands is therefore not provided by the code. -/
theorem C2_scan_order_dependent :
    engineOrder21.filter_lists = engineOrder12.filter_lists.reverse ∧
    should_block_request engineOrder12 "https://sub.ads.net/x" "script" "site.com" = false ∧
    should_block_request engineOrder21 "https://sub.ads.net/x" "script" "site.com" = true := by
  exact ⟨by decide, by decide, by decide⟩

/-- C3: fail-open on malformed input — whenever URL parsing fails,
`should_block_request` returns false for every engine state, resource type
and origin. -/
theorem C3_fail_open (e : FilterEngine) (url ty org : String)
    (h : parseUrlDomain url = none) :
    should_block_request e url ty org = false := by
  unfold should_block_request
  rw [h]

/-- C3, witness: a concrete unparsable string is never blocked, even by an
engine with a matching Allow rule and a third-party-cookies shield. -/
theorem C3_fail_open_witness :
    parseUrlDomain "notaurl" = none ∧
    should_block_request engineC1x "notaurl" "script" "b.com" = false :=
  ⟨by decide, C3_fail_open engineC1x "notaurl" "script" "b.com" (by decide)⟩

/-- C4: third-party heuristic — when a persisted shields entry for the
origin has `third_party_cookies` enabled, does not have both protections
off, and the parsed target domain differs from the origin,
`should_block_request` returns true for every contents of the filter
lists, i.e. before and instead of any rule scan. -/
theorem C4_third_party_short_circuit (ss : List (String × SiteShields))
    (cr : List (String × (String → Bool))) (gs : GlobalStats)
    (url ty org d : String) (sh : SiteShields)
    (hp : parseUrlDomain url = some d)
    (hget : alistGet org ss = some sh)
    (htp : sh.third_party_cookies = true)
    (hab : sh.ad_blocking = true ∨ sh.tracker_blocking = true)
    (hd : d ≠ org) :
    ∀ fls : List (String × FilterList),
      should_block_request ⟨fls, ss, cr, gs⟩ url ty org = true := by
  intro fls
  unfold should_block_request
  rw [hp]
  dsimp only
  rw [hget]
  have h1 : (!sh.ad_blocking && !sh.tracker_blocking) = false := by
    rcases hab with h | h <;> simp [h]
  have h2 : (sh.third_party_cookies && (d != org)) = true := by
    simp [htp, bne_iff_ne, hd]
  simp [h1, h2]

/-- C4, witness: a concrete cross-domain request from an origin with the
third-party-cookies shield enabled is blocked, although the engine's only
rule is an Allow rule. -/
theorem C4_witness :
    alistGet "b.com" engineC1x.site_shields = some shieldTP ∧
    shieldTP.third_party_cookies = true ∧
    (shieldTP.ad_blocking = true ∨ shieldTP.tracker_blocking = true) ∧
    parseUrlDomain "https://a.com/x" = some "a.com" ∧
    should_block_request engineC1x "https://a.com/x" "script" "b.com" = true := by
  refine ⟨by decide, rfl, Or.inl rfl, by decide, ?_⟩
  exact C4_third_party_short_circuit engineC1x.site_shields engineC1x.compiled_rules
    engineC1x.global_stats "https://a.com/x" "script" "b.com" "a.com" shieldTP
    (by decide) (by decide) rfl (Or.inl rfl) (by decide) engineC1x.filter_lists

/-- C5, counterexample: the claim's quantification over all flags fails
for `popup` — a rule with the `popup` flag off still matches a request of
resource type `popup` (the type match of the source has no `popup` arm and
falls to the default), and blocks the request. -/
theorem C5_gating_counterexample :
    rulePopupOff.options.popup = false ∧
    matches_rule engineC5 "https://x.com/ads/p" rulePopupOff "popup" "x.com" = true ∧
    should_block_request engineC5 "https://x.com/ads/p" "popup" "x.com" = true := by
  exact ⟨rfl, by decide, by decide⟩

/-- C5, amended: resource-type gating holds exactly for the five
recognized resource types — a false `script`/`image`/`stylesheet`/
`xmlhttprequest`/`subdocument` flag makes the rule fail to match a request
of that type — while for every other resource-type string (including
`popup` and `third_party`) the rule's flags are irrelevant and the rule
matches on the type dimension. -/
theorem C5_resource_type_gating :
    (∀ (e : FilterEngine) (url : String) (r : FilterRule) (ty org : String),
      ((ty = "script" ∧ r.options.script = false) ∨
       (ty = "image" ∧ r.options.image = false) ∨
       (ty = "stylesheet" ∧ r.options.stylesheet = false) ∨
       (ty = "xmlhttprequest" ∧ r.options.xmlhttprequest = false) ∨
       (ty = "subdocument" ∧ r.options.subdocument = false)) →
      matches_rule e url r ty org = false) ∧
    (∀ (e : FilterEngine) (url pat : String) (k : FilterRuleType)
       (doms excs : Option (List String)) (o1 o2 : FilterOptions) (ty org : String),
      ty ≠ "script" → ty ≠ "image" → ty ≠ "stylesheet" →
      ty ≠ "xmlhttprequest" → ty ≠ "subdocument" →
      matches_rule e url ⟨pat, k, doms, excs, o1⟩ ty org =
        matches_rule e url ⟨pat, k, doms, excs, o2⟩ ty org) := by
  constructor
  · intro e url r ty org h
    apply typeFlagOk_false_matches
    rcases h with ⟨ht, hf⟩ | ⟨ht, hf⟩ | ⟨ht, hf⟩ | ⟨ht, hf⟩ | ⟨ht, hf⟩ <;>
      subst ht <;> simp [typeFlagOk, hf]
  · intro e url pat k doms excs o1 o2 ty org h1 h2 h3 h4 h5
    have t1 := typeFlagOk_unrecognized o1 ty h1 h2 h3 h4 h5
    have t2 := typeFlagOk_unrecognized o2 ty h1 h2 h3 h4 h5
    unfold matches_rule patternMatches
    dsimp only
    rw [t1, t2]

/-- C5, witness: a rule with the `image` flag off does not match an image
request whose URL contains its pattern. -/
theorem C5_witness :
    ruleImageOff.options.image = false ∧
    matches_rule engineC5 "https://x.com/ads/p" ruleImageOff "image" "x.com" = false :=
  ⟨rfl, C5_resource_type_gating.1 engineC5 "https://x.com/ads/p" ruleImageOff "image" "x.com"
    (Or.inr (Or.inl ⟨rfl, rfl⟩))⟩

/-- C6: increment consistency — for the categories ad, tracker and
script, `increment_blocked_count` leaves the whole engine unchanged when
no shields entry is persisted for the domain, and otherwise increments the
matching per-domain counter and the matching global counter together by
exactly one. -/
theorem C6_increment_both_or_neither (e : FilterEngine) (d cat : String) (now : Nat)
    (hcat : cat = "ad" ∨ cat = "tracker" ∨ cat = "script") :
    (alistGet d e.site_shields = none → increment_blocked_count e d cat now = e) ∧
    (∀ sh, alistGet d e.site_shields = some sh →
      ∃ sh', alistGet d (increment_blocked_count e d cat now).site_shields = some sh' ∧
        perCounter cat sh' = perCounter cat sh + 1 ∧
        globCounter cat (increment_blocked_count e d cat now).global_stats =
          globCounter cat e.global_stats + 1) := by
  constructor
  · intro h
    unfold increment_blocked_count
    rw [h]
  · intro sh hsh
    unfold increment_blocked_count
    rw [hsh]
    rcases hcat with h | h | h <;> subst h <;> dsimp only <;> simp only [if_pos rfl]
    · exact ⟨{ sh with ads_blocked := sh.ads_blocked + 1, last_updated := now },
        alistGet_alistSet d _ _ sh hsh, by simp [perCounter], by simp [globCounter]⟩
    · exact ⟨{ sh with trackers_blocked := sh.trackers_blocked + 1, last_updated := now },
        alistGet_alistSet d _ _ sh hsh, by simp [perCounter], by simp [globCounter]⟩
    · exact ⟨{ sh with scripts_blocked := sh.scripts_blocked + 1, last_updated := now },
        alistGet_alistSet d _ _ sh hsh, by simp [perCounter], by simp [globCounter]⟩

/-- C6, witness: incrementing the ad counter of a domain with a persisted
entry bumps the per-domain and global ad counters by one together. -/
theorem C6_witness :
    alistGet "site.com" engineC6.site_shields = some shieldsEntry ∧
    ∃ sh', alistGet "site.com" (increment_blocked_count engineC6 "site.com" "ad" 7).site_shields
        = some sh' ∧
      perCounter "ad" sh' = perCounter "ad" shieldsEntry + 1 ∧
      globCounter "ad" (increment_blocked_count engineC6 "site.com" "ad" 7).global_stats =
        globCounter "ad" engineC6.global_stats + 1 :=
  ⟨by decide,
   (C6_increment_both_or_neither engineC6 "site.com" "ad" 7 (Or.inl rfl)).2
     shieldsEntry (by decide)⟩

/-- C7: reading the shields of a domain with no persisted entry
synthesizes the default configuration with the queried domain name and
zero counters; the source function takes the engine by shared reference,
so the registry itself is untouched (the embedding returns only the
synthesized value). -/
theorem C7_get_shields_default (e : FilterEngine) (d : String) (now : Nat)
    (h : alistGet d e.site_shields = none) :
    get_site_shields e d now =
      { domain := d, ad_blocking := true, tracker_blocking := true
        third_party_cookies := false, fingerprinting_protection := true
        https_only := true, scripts_blocked := 0, trackers_blocked := 0
        ads_blocked := 0, last_updated := now } := by
  unfold get_site_shields
  rw [h]
  rfl

/-- C7, witness: querying a domain absent from a registry with one other
entry yields the default shields for that domain. -/
theorem C7_witness :
    alistGet "other.com" engineC6.site_shields = none ∧
    get_site_shields engineC6 "other.com" 4 =
      { domain := "other.com", ad_blocking := true, tracker_blocking := true
        third_party_cookies := false, fingerprinting_protection := true
        https_only := true, scripts_blocked := 0, trackers_blocked := 0
        ads_blocked := 0, last_updated := 4 } :=
  ⟨by decide, C7_get_shields_default engineC6 "other.com" 4 (by decide)⟩

/-- C8: refresh failure isolation — a list whose fetch fails keeps its
rules and `last_updated` exactly as before the refresh, while every list
(at every position) is still processed independently of the others'
outcomes. -/
theorem C8_refresh_failure_isolation (e : FilterEngine) (fetch : String → Option String)
    (now : Nat) (i : Nat) (k : String) (fl : FilterList)
    (hi : e.filter_lists[i]? = some (k, fl))
    (hfail : fetch fl.url = none) :
    (update_filter_lists fetch now e).filter_lists[i]? = some (k, fl) ∧
    (∀ (j : Nat) (k' : String) (fl' : FilterList),
      e.filter_lists[j]? = some (k', fl') →
      (update_filter_lists fetch now e).filter_lists[j]? =
        some (k', refreshList fetch now fl')) := by
  have hmap : ∀ (j : Nat) (k' : String) (fl' : FilterList),
      e.filter_lists[j]? = some (k', fl') →
      (update_filter_lists fetch now e).filter_lists[j]? =
        some (k', refreshList fetch now fl') := by
    intro j k' fl' hj
    unfold update_filter_lists
    dsimp only
    rw [List.getElem?_map, hj]
    rfl
  refine ⟨?_, hmap⟩
  rw [hmap i k fl hi]
  unfold refreshList
  rw [hfail]

/-- C8, witness: with one fetch failing and one succeeding, the failed
list is byte-for-byte unchanged and the other list is still refreshed. -/
theorem C8_witness :
    engineC8.filter_lists[1]? = some ("b", listBad) ∧
    fetchC8 listBad.url = none ∧
    (update_filter_lists fetchC8 9 engineC8).filter_lists[1]? = some ("b", listBad) ∧
    (update_filter_lists fetchC8 9 engineC8).filter_lists[0]? =
      some ("g", refreshList fetchC8 9 listGood) := by
  have h := C8_refresh_failure_isolation engineC8 fetchC8 9 1 "b" listBad rfl rfl
  exact ⟨rfl, rfl, h.1, h.2 0 "g" listGood rfl⟩

/-- C9, counterexample: the refresh repopulates a disabled list — the
source loop never consults `enabled` — so a disabled list with a
successful fetch gets new rules and a new `last_updated`, contradicting
the claim that disabled lists are left unchanged. -/
theorem C9_counterexample :
    listOff.enabled = false ∧
    listOff.rules = [] ∧
    listOff.last_updated = 5 ∧
    (update_filter_lists fetchC9 9 engineC9).filter_lists =
      [("off", { listOff with
        rules := [⟨"ads.example.com", FilterRuleType.Block, none, none, FilterOptions.default⟩]
        last_updated := 9 })] := by
  exact ⟨rfl, rfl, rfl, by decide⟩

/-- C9, amended: the refresh fetches and repopulates every filter list
regardless of its `enabled` flag; in particular a disabled list whose
fetch succeeds is repopulated with the parsed rules and the new
timestamp. -/
theorem C9_refresh_ignores_enabled (e : FilterEngine) (fetch : String → Option String)
    (now : Nat) (i : Nat) (k : String) (fl : FilterList) (c : String)
    (_hdis : fl.enabled = false)
    (hi : e.filter_lists[i]? = some (k, fl))
    (hfetch : fetch fl.url = some c) :
    (update_filter_lists fetch now e).filter_lists[i]? =
      some (k, { fl with rules := parse_filter_rules c, last_updated := now }) := by
  unfold update_filter_lists
  dsimp only
  rw [List.getElem?_map, hi]
  dsimp only [Option.map]
  unfold refreshList
  rw [hfetch]

/-- C9, witness: the amended theorem applied to a concrete disabled list
whose fetch succeeds. -/
theorem C9_witness :
    engineC9.filter_lists[0]? = some ("off", listOff) ∧
    listOff.enabled = false ∧
    fetchC9 listOff.url = some "ads.example.com" ∧
    (update_filter_lists fetchC9 9 engineC9).filter_lists[0]? =
      some ("off", { listOff with
        rules := parse_filter_rules "ads.example.com", last_updated := 9 }) :=
  ⟨rfl, rfl, rfl,
   C9_refresh_ignores_enabled engineC9 fetchC9 9 0 "off" listOff "ads.example.com" rfl rfl rfl⟩

/-- C10, counterexample: the parser removes every occurrence of `@@`, not
only a leading one — the line `a@@b` has no leading `@@`, so the claim
says its pattern is `a@@b`, but the code produces `ab`. -/
theorem C10_counterexample :
    (parse_filter_rules "a@@b").map (fun r => r.pattern) = ["ab"] ∧
    (parse_filter_rules "a@@b").map (fun r => r.rule_type) = [FilterRuleType.Block] ∧
    ("ab" : String) ≠ "a@@b" := by
  exact ⟨by decide, by decide, by decide⟩

/-- C10, amended: the parser skips empty, `!` and `[` lines, classifies a
leading `@@` as Allow, else a `##` occurrence as Hide, else Block, and
takes as pattern the line with every `@@` occurrence removed, truncated at
the first `$`.  The claim's scenario holds verbatim, as do truncation and
interior `@@` removal. -/
theorem C10_parse_behavior :
    parse_filter_rules "! comment\n\nads.doubleclick.net\n@@allowlisted.com\ntracker.io##.banner" =
      [ ⟨"ads.doubleclick.net", FilterRuleType.Block, none, none, FilterOptions.default⟩,
        ⟨"allowlisted.com", FilterRuleType.Allow, none, none, FilterOptions.default⟩,
        ⟨"tracker.io##.banner", FilterRuleType.Hide, none, none, FilterOptions.default⟩ ] ∧
    parse_filter_rules "@@allow$script" =
      [ ⟨"allow", FilterRuleType.Allow, none, none, FilterOptions.default⟩ ] ∧
    parse_filter_rules "a@@b$x" =
      [ ⟨"ab", FilterRuleType.Block, none, none, FilterOptions.default⟩ ] := by
  exact ⟨by decide, by decide, by decide⟩

end SwBrowser
